import Mathlib

/-!
Verification development for the prisoners-scraper pipeline (src/main.py).

The file shallowly embeds the program: the Hebrew-to-English field
dictionary, the page harvester and pagination loop, the categorical
normalizer (`safe_map`), the demographics splitter, the date normalizer,
the transform pipeline, and the process entry point.  Pandas dataframes
are modelled as ordered association lists of named columns of cells;
operations that can raise in Python (column access on a missing name,
indexing a split-expanded frame past its width) return `Except`.
External effects (browser navigation, file reads) are modelled as
environment records recording each call's outcome.
-/

namespace PrisonersScraper

/-- Python `dict.get` over an association list; the first matching key wins
(the source dictionaries have distinct keys). -/
def dictGet : List (String × String) → String → Option String
  | [], _ => none
  | p :: rest, k => if p.1 = k then some p.2 else dictGet rest k

/-- `field_mapping` from src/main.py: Hebrew field labels to English keys. -/
def field_mapping : List (String × String) :=
  [("שם מלא", "full_name"),
   ("מספר אסיר, מספר ת\"ז (סוג ת\"ז)", "prisoner_id"),
   ("מגדר, גיל, אזור מגורים", "demographics"),
   ("תאריך לידה", "birth_date"),
   ("שיוך ארגוני", "organization"),
   ("אזרחות ישראלית", "israeli_citizenship"),
   ("עצור או שפוט", "status"),
   ("משך תקופת מאסר לשפוטים (בתצוגה של ימים-חודשים-שנים)", "sentence_duration"),
   ("תאריך מעצר", "arrest_date"),
   ("עבירות", "offenses"),
   ("ערכאת השיפוט", "court"),
   ("מספר תיק פל\"א או פ.א", "case_number"),
   ("מספר תיק בית משפט", "court_file_number"),
   ("האם מיועד או מיועדת לגירוש?", "deportation_status")]

/-- ASCII whitespace, the kind Python's `str.strip` removes from the data
at hand. -/
def isPyWhitespace (c : Char) : Bool :=
  c = ' ' || c = '\t' || c = '\n' || c = '\r'

/-- Python `str.strip()` on the underlying character list. -/
def pyStripList (l : List Char) : List Char :=
  ((l.dropWhile isPyWhitespace).reverse.dropWhile isPyWhitespace).reverse

/-- Python `str.strip()`. -/
def pyStrip (s : String) : String :=
  ⟨pyStripList s.data⟩

/-- Splitting a character list on a separator character, accumulating the
current (reversed) piece; `"a,b,".split(",") = ["a", "b", ""]`. -/
def splitCharAux (sep : Char) : List Char → List Char → List String
  | [], cur => [⟨cur.reverse⟩]
  | c :: rest, cur =>
    if c = sep then ⟨cur.reverse⟩ :: splitCharAux sep rest []
    else splitCharAux sep rest (c :: cur)

/-- Python `s.split(sep)` for a one-character separator. -/
def splitChar (sep : Char) (s : String) : List String :=
  splitCharAux sep s.data []

/-- Parse a nonempty all-digit character list as a natural number. -/
def digitsToNat? (l : List Char) : Option Nat :=
  if l = [] || l.any (fun c => !c.isDigit) then none
  else some (l.foldl (fun acc c => acc * 10 + (c.toNat - 48)) 0)

/-- Parse decimal digit text as a natural number. -/
def pyToNat? (s : String) : Option Nat :=
  digitsToNat? s.data

/-- Parse optionally-negated decimal digit text as an integer. -/
def pyToInt? (s : String) : Option Int :=
  match s.data with
  | '-' :: rest => (digitsToNat? rest).map (fun n => -(n : Int))
  | l => (digitsToNat? l).map Int.ofNat

/-- One pandas cell: a string, a number (integer-valued numerics, the only
kind the pipeline produces via `pd.to_numeric` on claim-relevant data), or
NaN/None (absent). -/
inductive Cell where
  | str : String → Cell
  | num : Int → Cell
  | nan : Cell
deriving DecidableEq

/-- A dataframe column. -/
abbrev Col := List Cell

/-- Errors raised by pandas operations modelled here (`KeyError` carries the
offending key rendered as text). -/
inductive PdError where
  | keyError : String → PdError
deriving DecidableEq

/-- A pandas dataframe: named columns in order.  All columns of a
well-formed frame have the same length; the operations below preserve it. -/
structure Df where
  cols : List (String × Col)
deriving DecidableEq

/-- Replace the first column named `name`, or append a new one at the end
(`df[name] = series` semantics). -/
def setColList : List (String × Col) → String → Col → List (String × Col)
  | [], name, c => [(name, c)]
  | p :: rest, name, c =>
    if p.1 = name then (name, c) :: rest else p :: setColList rest name c

/-- `df[name] = series`. -/
def Df.setCol (df : Df) (name : String) (c : Col) : Df :=
  ⟨setColList df.cols name c⟩

/-- Find a column by name. -/
def getColList : List (String × Col) → String → Option Col
  | [], _ => none
  | p :: rest, name => if p.1 = name then some p.2 else getColList rest name

/-- `df[name]`: raises `KeyError` when the column is missing. -/
def Df.getCol (df : Df) (name : String) : Except PdError Col :=
  match getColList df.cols name with
  | some c => .ok c
  | none => .error (.keyError name)

/-- Remove the first column named `name`, failing when absent. -/
def dropColList : List (String × Col) → String → Option (List (String × Col))
  | [], _ => none
  | p :: rest, name =>
    if p.1 = name then some rest else (dropColList rest name).map (p :: ·)

/-- `df.drop(name, axis=1)`: raises `KeyError` when the column is missing. -/
def Df.dropCol (df : Df) (name : String) : Except PdError Df :=
  match dropColList df.cols name with
  | some l => .ok ⟨l⟩
  | none => .error (.keyError name)

/-- `df[name] = df[name].apply(f)`. -/
def Df.mapCol (df : Df) (name : String) (f : Cell → Cell) : Except PdError Df := do
  let c ← df.getCol name
  pure (df.setCol name (c.map f))

namespace PrisonerDataTransformer

/-- `organization_mapping` from `PrisonerDataTransformer.__init__`. -/
def organization_mapping : List (String × String) :=
  [("חמאס", "HAMAS"),
   ("פת\"ח", "FATAH"),
   ("ג\x27יהאד אסלאמי", "ISLAMIC JIHAD"),
   ("ללא", "NONE"),
   ("חז\"ד", "DFLP"),
   ("חז\"ע", "PFLP"),
   ("דאע\"ש", "ISIS")]

/-- `citizenship_mapping` from `PrisonerDataTransformer.__init__`. -/
def citizenship_mapping : List (String × String) :=
  [("לא", "NO"), ("כן", "YES")]

/-- `status_mapping` from `PrisonerDataTransformer.__init__`. -/
def status_mapping : List (String × String) :=
  [("שפוט", "JUDGED"),
   ("עצור מנהלי", "ADMINISTRATIVE DETENTION"),
   ("עצור", "DETAINED")]

/-- `court_mapping` from `PrisonerDataTransformer.__init__`. -/
def court_mapping : List (String × String) :=
  [("בית משפט צבאי", "MILITARY"),
   ("בית משפט אזרחי", "CIVILIAN")]

/-- `deportation_mapping` from `PrisonerDataTransformer.__init__`. -/
def deportation_mapping : List (String × String) :=
  [("לא", "NO DEPORTATION"),
   ("כן, גירוש לצמיתות", "PERMANENT DEPORTATION"),
   ("כן, גירוש מותנה", "CONDITIONNAL DEPORTATION")]

/-- `gender_mapping` from `PrisonerDataTransformer.__init__`. -/
def gender_mapping : List (String × String) :=
  [("זכר", "MALE"), ("נקבה", "FEMALE")]

/-- `residence_mapping` from `PrisonerDataTransformer.__init__`. -/
def residence_mapping : List (String × String) :=
  [("יהודה", "JUDEA"),
   ("רצ\"ע", "GAZA STRIP"),
   ("שומרון", "SAMARIA"),
   ("י-ם", "JERUSALEM"),
   ("חו\"ל", "ABROAD"),
   ("קו ירוק", "GREEN LINE")]

/-- The seven fixed categorical tables of the Categorical Normalizer. -/
def sevenTables : List (List (String × String)) :=
  [organization_mapping, citizenship_mapping, status_mapping, court_mapping,
   deportation_mapping, gender_mapping, residence_mapping]

/-- `safe_map` from src/main.py: `None` for NaN input (`pd.isna`), otherwise
`mapping.get(value, value)`.  A numeric cell is never a key of the (string
keyed) tables, so it passes through unchanged. -/
def safe_map (value : Cell) (mapping : List (String × String)) : Cell :=
  match value with
  | .nan => .nan
  | .str s => .str ((dictGet mapping s).getD s)
  | .num n => .num n

/-- Width contribution of one cell under `Series.str.split(',', expand=True)`:
a string cell contributes its number of comma-separated parts, a NaN or
non-string cell occupies a single (NaN) slot. -/
def cellSplitWidth : Cell → Nat
  | .str s => (splitChar ',' s).length
  | _ => 1

/-- Number of columns of the expanded split frame: zero for an empty series
(no rows, no columns), otherwise the maximum per-row width (at least one). -/
def splitWidth (c : Col) : Nat :=
  match c with
  | [] => 0
  | _ => c.foldl (fun acc cell => max acc (cellSplitWidth cell)) 1

/-- Column `i` of the expanded split frame: part `i` of each string cell
(NaN past the row's own width), NaN for NaN/non-string rows. -/
def splitPartCol (c : Col) (i : Nat) : Col :=
  c.map fun cell =>
    match cell with
    | .str s =>
      match (splitChar ',' s)[i]? with
      | some p => .str p
      | none => .nan
    | _ => .nan

/-- `split_data[i]` on the frame produced by
`df[col].str.split(',', expand=True)`: `KeyError` when `i` is not one of the
expanded columns. -/
def splitExpandGet (c : Col) (i : Nat) : Except PdError Col :=
  if i < splitWidth c then .ok (splitPartCol c i) else .error (.keyError (toString i))

/-- `Series.str.strip()`: trims string cells, leaves NaN (and maps any
non-string cell to NaN, as the `.str` accessor does). -/
def stripCell : Cell → Cell
  | .str s => .str (pyStrip s)
  | _ => .nan

/-- `pd.to_numeric(..., errors="coerce")` on one cell, for the integer-valued
numerics the claims exercise: numeric text parses, other text coerces to
NaN, numbers and NaN pass through. -/
def toNumericCell : Cell → Cell
  | .str s =>
    match pyToInt? s with
    | some n => .num n
    | none => .nan
  | .num n => .num n
  | .nan => .nan

/-- `split_demographics` from src/main.py: expand the `demographics` column
on every comma, take expanded columns 0, 1, 2 (a `KeyError` when the frame
is narrower), strip them into `gender`, `age`, `residence`, normalize
gender and residence through `safe_map`, drop `demographics`, and coerce
`age` to numeric. -/
def split_demographics (df : Df) : Except PdError Df := do
  let demo ← df.getCol "demographics"
  let g ← splitExpandGet demo 0
  let a ← splitExpandGet demo 1
  let r ← splitExpandGet demo 2
  let d1 := ((df.setCol "gender" (g.map stripCell)).setCol "age"
      (a.map stripCell)).setCol "residence" (r.map stripCell)
  let d2 ← d1.mapCol "gender" (fun c => safe_map c gender_mapping)
  let d3 ← d2.mapCol "residence" (fun c => safe_map c residence_mapping)
  let d4 ← d3.dropCol "demographics"
  d4.mapCol "age" toNumericCell

/-- A calendar date as (year, month, day). -/
abbrev DateTriple := Nat × Nat × Nat

/-- Fixed default date `datetime(1, 1, 1)` that pandas substitutes for
missing components when parsing date text (`_DEFAULT_DATETIME` in
`pandas._libs.tslibs.parsing`); notably it is a constant, not the current
time. -/
def pandasDefaultDate : DateTriple := (1, 1, 1)

/-- Basic calendar bounds check used by the modelled parser. -/
def validDate (y m d : Nat) : Bool :=
  1 ≤ y && y ≤ 9999 && 1 ≤ m && m ≤ 12 && 1 ≤ d && d ≤ 31

/-- Modelled from pandas (external library `pd.to_datetime`): the special
strings "now" and "today" parse to the current time (`parse_today_now` in
`array_to_datetime`), here the ambient run date `now` — the one
time-dependent case of the parser.  Every other accepted form is a pure
function of the text: ISO `y-m-d`, slashed `m/d/y`, and a bare year whose
missing month and day are filled from the fixed `pandasDefaultDate`;
anything else fails. -/
def to_datetime (now : DateTriple) (s : String) : Option DateTriple :=
  if s = "now" ∨ s = "today" then some now else
  match (splitChar '-' s).mapM pyToNat? with
  | some [y, m, d] => if validDate y m d then some (y, m, d) else none
  | some [y] =>
    if 1000 ≤ y && y ≤ 9999 then some (y, pandasDefaultDate.2.1, pandasDefaultDate.2.2)
    else none
  | _ =>
    match (splitChar '/' s).mapM pyToNat? with
    | some [m, d, y] => if validDate y m d then some (y, m, d) else none
    | _ => none

/-- Zero-pad a number to two digits. -/
def pad2 (n : Nat) : String :=
  if n < 10 then "0" ++ toString n else toString n

/-- Zero-pad a number to four digits. -/
def pad4 (n : Nat) : String :=
  if n < 10 then "000" ++ toString n
  else if n < 100 then "00" ++ toString n
  else if n < 1000 then "0" ++ toString n
  else toString n

/-- `strftime("%Y-%m-%d")`. -/
def formatTriple (d : DateTriple) : String :=
  pad4 d.1 ++ "-" ++ pad2 d.2.1 ++ "-" ++ pad2 d.2.2

/-- `format_date` from src/main.py: `None` for NaN, otherwise parse and
reformat to `YYYY-MM-DD`, with any failure (including a non-text cell)
caught and converted to `None`.  The `now` argument is the ambient
wall-clock date of the run, consulted by the parser only for the special
strings "now" and "today". -/
def format_date (now : DateTriple) (c : Cell) : Cell :=
  match c with
  | .nan => .nan
  | .num _ => .nan
  | .str s =>
    match to_datetime now s with
    | some d => .str (formatTriple d)
    | none => .nan

/-- `transform_data` method from src/main.py: split demographics, reformat
the two date columns, and normalize the five categorical columns through
`safe_map`.  Reading any of these columns from a frame that lacks it raises
`KeyError`.  `now` is the ambient wall-clock date, threaded to `format_date`
to expose its (non-)dependence on run time. -/
def transform_data (now : DateTriple) (df : Df) : Except PdError Df := do
  let d0 ← split_demographics df
  let d1 ← d0.mapCol "birth_date" (format_date now)
  let d2 ← d1.mapCol "arrest_date" (format_date now)
  let d3 ← d2.mapCol "organization" (fun c => safe_map c organization_mapping)
  let d4 ← d3.mapCol "israeli_citizenship" (fun c => safe_map c citizenship_mapping)
  let d5 ← d4.mapCol "status" (fun c => safe_map c status_mapping)
  let d6 ← d5.mapCol "court" (fun c => safe_map c court_mapping)
  d6.mapCol "deportation_status" (fun c => safe_map c deportation_mapping)

end PrisonerDataTransformer

/-- One `.col-12` field div inside a record block: the text of its `label`
element and of its `.error-txt` value element, each present only when the
corresponding `query_selector` found an element. -/
structure FieldElem where
  label : Option String
  value : Option String
deriving DecidableEq

/-- One `.row.row-gov.ordered-fields` record block: its field divs in DOM
order. -/
abbrev Block := List FieldElem

/-- A raw record: insertion-ordered mapping from canonical field identifier
to raw text (a Python dict built by successive assignments). -/
abbrev RawRecord := List (String × String)

/-- Python dict assignment `data[k] = v`: overwrite in place, else append. -/
def dictSet (data : RawRecord) (k v : String) : RawRecord :=
  match data with
  | [] => [(k, v)]
  | p :: rest => if p.1 = k then (k, v) :: rest else p :: dictSet rest k v

/-- The per-block extraction loop of `get_page_data`: for each field div
with both a label and a value element, strip both texts and store the value
under the English key given by `field_mapping`, skipping unmapped labels.
The record is built (and appended by the caller) even when it stays empty. -/
def extractRecord (b : Block) : RawRecord :=
  b.foldl
    (fun data f =>
      match f.label, f.value with
      | some l, some v =>
        match dictGet field_mapping (pyStrip l) with
        | some k => dictSet data k (pyStrip v)
        | none => data
      | _, _ => data)
    []

/-- The per-page extraction of `get_page_data`: one appended record per
detected block, in DOM order. -/
def extractRecords (rows : List Block) : List RawRecord :=
  rows.map extractRecord

/-- Outcomes of the Render Client calls made while fetching one page:
`goto`, `wait_for_selector`, and the block enumeration together with all
element-text reads (any of which may raise). -/
structure PageEnv where
  gotoResult : Except String Unit
  waitResult : Except String Unit
  rowsResult : Except String (List Block)

/-- The `try` body of `get_page_data`: navigate, wait for the content
marker, enumerate the blocks, and extract one record per block; any
failing step aborts the body with its error. -/
def get_page_dataTry (env : PageEnv) : Except String (List RawRecord) := do
  let _ ← env.gotoResult
  let _ ← env.waitResult
  let rows ← env.rowsResult
  pure (extractRecords rows)

/-- `get_page_data` from src/main.py: the body above with its
`except Exception` handler, which converts any failure into an empty list
of records. -/
def get_page_data (env : PageEnv) : List RawRecord :=
  match get_page_dataTry env with
  | .ok l => l
  | .error _ => []

/-- Python truthiness of `max_pages and page_num >= max_pages`: `None` and
`0` are falsy, so neither imposes a ceiling. -/
def pageCeilingHit : Option Nat → Nat → Bool
  | none, _ => false
  | some m, pageNum => if m = 0 then false else decide (m ≤ pageNum)

/-- The `while True` loop of `scrape_all_pages`, with explicit fuel standing
for the number of remaining iterations (the Python loop has no bound of its
own and diverges on an always-nonempty fetch; `none` models running out of
fuel).  Returns the accumulated records and the list of offsets fetched. -/
def scrapeLoop {α : Type} (fetch : Nat → List α) (maxPages : Option Nat) :
    Nat → Nat → Nat → List α → List Nat → Option (List α × List Nat)
  | 0, _, _, _, _ => none
  | fuel + 1, skip, pageNum, acc, calls =>
    let prisoners := fetch skip
    let calls2 := calls ++ [skip]
    if prisoners.isEmpty then some (acc, calls2)
    else
      let acc2 := acc ++ prisoners
      if pageCeilingHit maxPages pageNum then some (acc2, calls2)
      else scrapeLoop fetch maxPages fuel (skip + 20) (pageNum + 1) acc2 calls2

/-- `scrape_all_pages` from src/main.py, abstracted over the page fetch:
start at offset 0, page number 1, advancing the offset by 20 after every
nonempty page until an empty page or the optional ceiling. -/
def scrape_all_pages {α : Type} (fetch : Nat → List α) (maxPages : Option Nat)
    (fuel : Nat) : Option (List α × List Nat) :=
  scrapeLoop fetch maxPages fuel 0 1 [] []

/-- Failures of the raw-CSV read in the transform stage. -/
inductive IOErr where
  | fileNotFound : IOErr
  | other : IOErr
deriving DecidableEq

/-- Environment of one process run: whether `output/prisoners_data.csv`
exists at startup, the Render Client outcomes per offset, the outcome of
`pd.read_csv` on the raw file at transform time (the file system is
external, so the read is an observation of its own), and the ambient
wall-clock date. -/
structure RunEnv where
  rawFileExists : Bool
  pages : Nat → PageEnv
  readRaw : Except IOErr Df
  now : PrisonerDataTransformer.DateTriple

/-- Observable outcome of the extraction stage. -/
structure ScrapResult where
  fetchCalls : List Nat
  sessions : Nat
  wroteRaw : Bool
deriving DecidableEq

/-- `scrap_data` from src/main.py: return immediately when the raw output
file already exists (no browser session, no fetches); otherwise open one
browser session, run the pagination loop with `MAX_PAGES = None`, and save
the results. -/
def scrap_data (env : RunEnv) (fuel : Nat) : Option ScrapResult :=
  if env.rawFileExists then some ⟨[], 0, false⟩
  else
    match scrape_all_pages (fun skip => get_page_data (env.pages skip)) none fuel with
    | some (_, calls) => some ⟨calls, 1, true⟩
    | none => none

/-- Observable outcome of the transform stage. -/
structure TransformResult where
  wroteTransformed : Bool
  wroteStats : Bool
  errorLogged : Bool
deriving DecidableEq

/-- The module-level `transform_data` function from src/main.py: read the
raw CSV, transform and validate, and write the two outputs; a
`FileNotFoundError` from the read, or any other exception, is caught,
logged as an error, and the stage returns normally without outputs. -/
def transform_data_stage (env : RunEnv) : TransformResult :=
  match env.readRaw with
  | .error _ => ⟨false, false, true⟩
  | .ok df =>
    match PrisonerDataTransformer.transform_data env.now df with
    | .ok _ => ⟨true, true, false⟩
    | .error _ => ⟨false, false, true⟩

/-- `main` from src/main.py under `asyncio.run`: run `scrap_data`, then the
transform stage unconditionally; when both return (no uncaught exception),
the interpreter exits with status 0 — the third component.  `none` models a
non-terminating pagination loop. -/
def mainRun (env : RunEnv) (fuel : Nat) :
    Option (ScrapResult × TransformResult × Nat) :=
  match scrap_data env fuel with
  | none => none
  | some s => some (s, transform_data_stage env, 0)

/-- A raw CSV with the full canonical header and exactly one row, whose
only populated fields are `full_name`, `demographics` and `organization`
(empty CSV cells read back as NaN). -/
def rawCsvC2 : Df :=
  ⟨[("full_name", [Cell.str "א"]), ("prisoner_id", [Cell.nan]),
    ("demographics", [Cell.str "זכר, 30, י-ם"]), ("birth_date", [Cell.nan]),
    ("organization", [Cell.str "חמאס"]), ("israeli_citizenship", [Cell.nan]),
    ("status", [Cell.nan]), ("sentence_duration", [Cell.nan]),
    ("arrest_date", [Cell.nan]), ("offenses", [Cell.nan]),
    ("court", [Cell.nan]), ("case_number", [Cell.nan]),
    ("court_file_number", [Cell.nan]), ("deportation_status", [Cell.nan])]⟩

/-- A run whose raw output file already exists but whose raw-CSV read at
transform time fails with `FileNotFoundError`. -/
def missingInputEnv : RunEnv :=
  ⟨true, fun _ => ⟨.ok (), .ok (), .ok []⟩, .error .fileNotFound, (2026, 10, 12)⟩

/-- A run whose raw output file already exists and whose raw-CSV read
succeeds on an empty frame. -/
def cachedRunEnv : RunEnv :=
  ⟨true, fun _ => ⟨.ok (), .ok (), .ok []⟩, .ok ⟨[]⟩, (2026, 10, 12)⟩

/-- A raw frame whose `birth_date` text is the special string "now", which
pandas parses to the current time. -/
def rawCsvNow : Df :=
  ⟨[("demographics", [Cell.str "זכר, 30, י-ם"]), ("birth_date", [Cell.str "now"]),
    ("arrest_date", [Cell.nan]), ("organization", [Cell.nan]),
    ("israeli_citizenship", [Cell.nan]), ("status", [Cell.nan]),
    ("court", [Cell.nan]), ("deportation_status", [Cell.nan])]⟩

/-- A raw frame whose date fields hold ordinary date text (no "now" or
"today"). -/
def rawCsvC8 : Df :=
  ⟨[("demographics", [Cell.str "זכר, 30, י-ם"]), ("birth_date", [Cell.str "2000-01-02"]),
    ("arrest_date", [Cell.str "03/04/2001"]), ("organization", [Cell.nan]),
    ("israeli_citizenship", [Cell.nan]), ("status", [Cell.nan]),
    ("court", [Cell.nan]), ("deportation_status", [Cell.nan])]⟩

end PrisonersScraper

namespace PrisonersScraper

open PrisonerDataTransformer

/-- A successful `dictGet` lookup returns a value stored in the table. -/
theorem dictGet_mem {T : List (String × String)} {s w : String}
    (h : dictGet T s = some w) : ∃ k, (k, w) ∈ T := by
  induction T with
  | nil => simp [dictGet] at h
  | cons p rest ih =>
    obtain ⟨k0, v0⟩ := p
    by_cases hp : k0 = s
    · refine ⟨k0, ?_⟩
      simp [dictGet, hp] at h
      simp [h]
    · simp only [dictGet, hp, if_false] at h
      obtain ⟨k, hk⟩ := ih h
      exact ⟨k, List.mem_cons_of_mem _ hk⟩

/-- In each of the seven fixed categorical tables, no stored value is
itself a key (the English codes never appear among the Hebrew keys). -/
theorem sevenTables_values_not_keys :
    ∀ T ∈ sevenTables, ∀ p ∈ T, dictGet T p.2 = none := by decide

/-- Unfolding of one iteration of the pagination loop. -/
theorem scrapeLoop_succ {α : Type} (fetch : Nat → List α) (mp : Option Nat)
    (fuel skip pageNum : Nat) (acc : List α) (calls : List Nat) :
    scrapeLoop fetch mp (fuel + 1) skip pageNum acc calls =
      (if (fetch skip).isEmpty then some (acc, calls ++ [skip])
       else if pageCeilingHit mp pageNum then some (acc ++ fetch skip, calls ++ [skip])
       else scrapeLoop fetch mp fuel (skip + 20) (pageNum + 1) (acc ++ fetch skip)
              (calls ++ [skip])) := rfl

/-- C1: the claim says the Demographics Splitter never raises and that
missing components resolve to absent even when no record in the batch has
three components.  The code belies it: on a batch whose records all have
fewer than three comma-separated components, the expanded split frame has
fewer than three columns and `split_data[2]` raises `KeyError: 2` — here
evaluated on the failing batch whose single record reads "זכר, 30". -/
theorem c1_short_batch_split_raises :
    split_demographics ⟨[("demographics", [Cell.str "זכר, 30"])]⟩
      = .error (.keyError "2") := rfl

/-- C2 counterexample: on a raw CSV containing exactly one row with only
the three fields `full_name`, `demographics`, `organization` (hence only
those three columns), the Transform Pipeline raises `KeyError:
'birth_date'` instead of producing the claimed canonical record. -/
theorem c2_three_column_raw_raises :
    transform_data (2026, 10, 12)
      ⟨[("full_name", [Cell.str "א"]), ("demographics", [Cell.str "זכר, 30, י-ם"]),
        ("organization", [Cell.str "חמאס"])]⟩
      = .error (.keyError "birth_date") := rfl

/-- C2 amended: when the one-row raw CSV also carries the remaining
canonical raw columns (empty), the pipeline succeeds, whatever the run
date, and the output row has `full_name` "א", `gender` "MALE", `age` 30,
`residence` "JERUSALEM" and `organization` "HAMAS". -/
theorem c2_full_header_one_row_transform (now : DateTriple) :
    (transform_data now rawCsvC2).map
      (fun d => (d.getCol "full_name", d.getCol "gender", d.getCol "age",
                 d.getCol "residence", d.getCol "organization"))
      = .ok (.ok [Cell.str "א"], .ok [Cell.str "MALE"], .ok [Cell.num 30],
             .ok [Cell.str "JERUSALEM"], .ok [Cell.str "HAMAS"]) := rfl

/-- C3: driven by a fetch returning pages of 3, 2 and 0 records with no
page ceiling, the pagination loop accumulates exactly the 5 records in
order and makes exactly 3 fetch calls, at offsets 0, 20 and 40. -/
theorem c3_pagination_scenario :
    scrape_all_pages
      (fun skip => if skip = 0 then [1, 2, 3] else if skip = 20 then [4, 5] else [])
      none 10 = some ([1, 2, 3, 4, 5], [0, 20, 40]) := rfl

/-- C4 counterexample: the claim says the splitter cuts on the first two
commas only, so for "a, b, c, d" the residence would keep "c, d"; the code
splits on every comma and keeps only the text between the second and third
commas, yielding residence "c". -/
theorem c4_residence_keeps_middle_only :
    (split_demographics ⟨[("demographics", [Cell.str "a, b, c, d"])]⟩).map
        (fun d => d.getCol "residence") = .ok (.ok [Cell.str "c"]) ∧
      Cell.str "c" ≠ Cell.str "c, d" :=
  ⟨rfl, by decide⟩

/-- C4 amended: the splitter cuts the composite text on every comma; the
three components are the whitespace-trimmed texts before the first comma,
between the first and second, and between the second and third (text after
a third comma is discarded), with gender and residence then normalized and
age coerced to numeric. -/
theorem c4_split_on_every_comma (s : String) (h : 2 < (splitChar ',' s).length) :
    split_demographics ⟨[("demographics", [Cell.str s])]⟩ =
      .ok ⟨[("gender",
              [safe_map (Cell.str (pyStrip ((splitChar ',' s).getD 0 ""))) gender_mapping]),
            ("age", [toNumericCell (Cell.str (pyStrip ((splitChar ',' s).getD 1 "")))]),
            ("residence",
              [safe_map (Cell.str (pyStrip ((splitChar ',' s).getD 2 ""))) residence_mapping])]⟩ := by
  have hw : splitWidth [Cell.str s] = max 1 (splitChar ',' s).length := rfl
  have hlt : ∀ i : Nat, i < 3 → i < splitWidth [Cell.str s] := by
    intro i hi
    rw [hw]
    exact lt_of_lt_of_le (by omega) (Nat.le_max_right 1 _)
  have hpart : ∀ i : Nat, i < 3 →
      splitExpandGet [Cell.str s] i = .ok [Cell.str ((splitChar ',' s).getD i "")] := by
    intro i hi
    have hlen : i < (splitChar ',' s).length := by omega
    unfold splitExpandGet
    rw [if_pos (hlt i hi)]
    unfold splitPartCol
    simp [List.getElem?_eq_getElem hlen, List.getD_eq_getElem _ _ hlen]
  show (do
      let g ← splitExpandGet [Cell.str s] 0
      let a ← splitExpandGet [Cell.str s] 1
      let r ← splitExpandGet [Cell.str s] 2
      let d1 := (((⟨[("demographics", [Cell.str s])]⟩ : Df).setCol "gender"
          (g.map stripCell)).setCol "age" (a.map stripCell)).setCol "residence"
          (r.map stripCell)
      let d2 ← d1.mapCol "gender" (fun c => safe_map c gender_mapping)
      let d3 ← d2.mapCol "residence" (fun c => safe_map c residence_mapping)
      let d4 ← d3.dropCol "demographics"
      d4.mapCol "age" toNumericCell) = _
  rw [hpart 0 (by omega), hpart 1 (by omega), hpart 2 (by omega)]
  rfl

/-- Witness for C4 amended, at the composite text "a, b, c, d". -/
theorem c4_split_on_every_comma_witness :
    2 < (splitChar ',' "a, b, c, d").length ∧
    split_demographics ⟨[("demographics", [Cell.str "a, b, c, d"])]⟩ =
      .ok ⟨[("gender",
              [safe_map (Cell.str (pyStrip ((splitChar ',' "a, b, c, d").getD 0 "")))
                gender_mapping]),
            ("age",
              [toNumericCell (Cell.str (pyStrip ((splitChar ',' "a, b, c, d").getD 1 "")))]),
            ("residence",
              [safe_map (Cell.str (pyStrip ((splitChar ',' "a, b, c, d").getD 2 "")))
                residence_mapping])]⟩ :=
  ⟨by decide, c4_split_on_every_comma "a, b, c, d" (by decide)⟩

/-- C5: every failure of navigation (`goto`), waiting
(`wait_for_selector`) or extraction (block enumeration and element reads)
inside `get_page_data` yields an empty record list, and a fully successful
fetch yields exactly the extracted records — the caller always receives a
plain list, never an exception. -/
theorem c5_page_failures_become_empty (env : PageEnv) :
    (∀ e, env.gotoResult = .error e → get_page_data env = []) ∧
    (∀ e, env.waitResult = .error e → get_page_data env = []) ∧
    (∀ e, env.rowsResult = .error e → get_page_data env = []) ∧
    (∀ rows, env.gotoResult = .ok () → env.waitResult = .ok () →
      env.rowsResult = .ok rows → get_page_data env = extractRecords rows) := by
  obtain ⟨g, w, r⟩ := env
  refine ⟨?_, ?_, ?_, ?_⟩
  · intro e he; cases he; rfl
  · intro e he
    cases he
    cases g with
    | ok u => cases u; rfl
    | error e2 => rfl
  · intro e he
    cases he
    cases g with
    | ok u =>
      cases u
      cases w with
      | ok u2 => cases u2; rfl
      | error e2 => rfl
    | error e2 => rfl
  · intro rows hg hw hr
    cases hg; cases hw; cases hr; rfl

/-- Witness for C5: a navigation failure at a concrete page environment is
converted to an empty page. -/
theorem c5_page_failures_become_empty_witness :
    get_page_data ⟨.error "timeout", .ok (), .ok []⟩ = [] :=
  (c5_page_failures_become_empty ⟨.error "timeout", .ok (), .ok []⟩).1 "timeout" rfl

/-- C6: for each of the seven fixed categorical tables, `safe_map` sends
absent to absent, replaces a present value by its table entry on an exact
match, passes an unmatched value through unchanged, and is idempotent. -/
theorem c6_map_value_spec_and_idempotent (T : List (String × String))
    (hT : T ∈ sevenTables) :
    safe_map Cell.nan T = Cell.nan ∧
    (∀ s w, dictGet T s = some w → safe_map (Cell.str s) T = Cell.str w) ∧
    (∀ s, dictGet T s = none → safe_map (Cell.str s) T = Cell.str s) ∧
    (∀ v, safe_map (safe_map v T) T = safe_map v T) := by
  refine ⟨rfl, ?_, ?_, ?_⟩
  · intro s w hw; simp [safe_map, hw]
  · intro s hs; simp [safe_map, hs]
  · intro v
    match v with
    | .nan => rfl
    | .num n => rfl
    | .str s =>
      cases hd : dictGet T s with
      | none => simp [safe_map, hd]
      | some w =>
        obtain ⟨k, hk⟩ := dictGet_mem hd
        have hwn : dictGet T w = none := sevenTables_values_not_keys T hT (k, w) hk
        simp [safe_map, hd, hwn]

/-- Witness for C6, at the gender table and the value "זכר". -/
theorem c6_map_value_spec_and_idempotent_witness :
    gender_mapping ∈ sevenTables ∧
    safe_map Cell.nan gender_mapping = Cell.nan ∧
    safe_map (safe_map (Cell.str "זכר") gender_mapping) gender_mapping
      = safe_map (Cell.str "זכר") gender_mapping := by
  have h := c6_map_value_spec_and_idempotent gender_mapping (by decide)
  exact ⟨by decide, h.1, h.2.2.2 (Cell.str "זכר")⟩

/-- C7 counterexample: on a run whose transform-stage input read fails
with `FileNotFoundError`, the stage logs the error and writes nothing, yet
the process still exits with status 0 — the exit status does not reflect
whether the transform stage located its required input file. -/
theorem c7_exit_success_despite_missing_input :
    missingInputEnv.readRaw = Except.error IOErr.fileNotFound ∧
    mainRun missingInputEnv 1 = some (⟨[], 0, false⟩, ⟨false, false, true⟩, 0) :=
  ⟨rfl, rfl⟩

/-- C7 amended: the entry point skips extraction when the raw output file
exists, always runs the transform stage afterwards, reports a missing (or
otherwise failing) input read as a logged error with no outputs written,
and exits with status 0 regardless. -/
theorem c7_entry_point_behavior (env : RunEnv) (fuel : Nat) (s : ScrapResult)
    (h : scrap_data env fuel = some s) :
    mainRun env fuel = some (s, transform_data_stage env, 0) ∧
    (env.rawFileExists = true → s = ⟨[], 0, false⟩) ∧
    (∀ e, env.readRaw = Except.error e →
      transform_data_stage env = ⟨false, false, true⟩) := by
  refine ⟨by simp [mainRun, h], ?_, ?_⟩
  · intro hr
    rw [scrap_data, if_pos hr] at h
    exact (Option.some_inj.mp h).symm
  · intro e he
    simp [transform_data_stage, he]

/-- Witness for C7 amended, at the run with a missing transform input. -/
theorem c7_entry_point_behavior_witness :
    scrap_data missingInputEnv 1 = some ⟨[], 0, false⟩ ∧
    mainRun missingInputEnv 1
      = some (⟨[], 0, false⟩, transform_data_stage missingInputEnv, 0) := by
  have h := c7_entry_point_behavior missingInputEnv 1 ⟨[], 0, false⟩ rfl
  exact ⟨rfl, h.1⟩

/-- Binding a successful `Except` value reduces to the continuation. -/
theorem ok_bind {ε α β : Type} (a : α) (f : α → Except ε β) :
    ((Except.ok a : Except ε α) >>= f) = f a := rfl

/-- A successful `Except` bind splits into a successful head and tail. -/
theorem bind_eq_ok {ε α β : Type} {x : Except ε α} {f : α → Except ε β} {b : β}
    (h : (x >>= f) = .ok b) : ∃ a, x = .ok a ∧ f a = .ok b := by
  cases x with
  | error e => exact Except.noConfusion h
  | ok a => exact ⟨a, rfl, h⟩

/-- Assigning one column leaves every other column untouched. -/
theorem getColList_setColList_ne (l : List (String × Col)) (n m : String) (c : Col)
    (h : n ≠ m) : getColList (setColList l n c) m = getColList l m := by
  induction l with
  | nil => simp [setColList, getColList, h]
  | cons p rest ih =>
    by_cases hp : p.1 = n
    · rw [setColList, if_pos hp, getColList, if_neg h, getColList, if_neg]
      rw [hp]
      exact h
    · rw [setColList, if_neg hp, getColList, getColList]
      by_cases hm : p.1 = m
      · rw [if_pos hm, if_pos hm]
      · rw [if_neg hm, if_neg hm, ih]

/-- Mapping one column leaves every other column untouched. -/
theorem mapCol_ok_getColList_ne {df d : Df} {n : String} {f : Cell → Cell} (m : String)
    (h : n ≠ m) (hm : df.mapCol n f = .ok d) :
    getColList d.cols m = getColList df.cols m := by
  obtain ⟨c, hc, hset⟩ := bind_eq_ok hm
  injection hset with hset2
  rw [← hset2]
  exact getColList_setColList_ne df.cols n m (c.map f) h

/-- Dropping one column leaves every other column untouched. -/
theorem dropColList_getColList_ne (l l' : List (String × Col)) (n m : String)
    (h : n ≠ m) (hd : dropColList l n = some l') :
    getColList l' m = getColList l m := by
  induction l generalizing l' with
  | nil => exact Option.noConfusion hd
  | cons p rest ih =>
    by_cases hp : p.1 = n
    · rw [dropColList, if_pos hp] at hd
      injection hd with hd2
      rw [← hd2, getColList, if_neg]
      rw [hp]
      exact h
    · rw [dropColList, if_neg hp] at hd
      cases hrest : dropColList rest n with
      | none => rw [hrest] at hd; exact Option.noConfusion hd
      | some rest' =>
        rw [hrest] at hd
        injection hd with hd2
        rw [← hd2, getColList, getColList]
        by_cases hm : p.1 = m
        · rw [if_pos hm, if_pos hm]
        · rw [if_neg hm, if_neg hm, ih rest' hrest]

/-- A successful demographics split only touches the `gender`, `age`,
`residence` and `demographics` columns; any other column — in particular
the two date columns — survives unchanged. -/
theorem split_demographics_ok_getColList_ne {df d0 : Df} (m : String)
    (h1 : "gender" ≠ m) (h2 : "age" ≠ m) (h3 : "residence" ≠ m)
    (h4 : "demographics" ≠ m) (hs : split_demographics df = .ok d0) :
    getColList d0.cols m = getColList df.cols m := by
  unfold split_demographics at hs
  obtain ⟨demo, hdemo, hs⟩ := bind_eq_ok hs
  obtain ⟨g, hg, hs⟩ := bind_eq_ok hs
  obtain ⟨a, ha, hs⟩ := bind_eq_ok hs
  obtain ⟨r, hr, hs⟩ := bind_eq_ok hs
  obtain ⟨d2, hd2, hs⟩ := bind_eq_ok hs
  obtain ⟨d3, hd3, hs⟩ := bind_eq_ok hs
  obtain ⟨d4, hd4, hs⟩ := bind_eq_ok hs
  have e0 : getColList d0.cols m = getColList d4.cols m :=
    mapCol_ok_getColList_ne m h2 hs
  have e4 : getColList d4.cols m = getColList d3.cols m := by
    unfold Df.dropCol at hd4
    cases hdl : dropColList d3.cols "demographics" with
    | none => rw [hdl] at hd4; exact Except.noConfusion hd4
    | some l' =>
      rw [hdl] at hd4
      injection hd4 with hd42
      rw [← hd42]
      exact dropColList_getColList_ne d3.cols l' "demographics" m h4 hdl
  have e3 : getColList d3.cols m = getColList d2.cols m :=
    mapCol_ok_getColList_ne m h3 hd3
  have e2 : getColList d2.cols m = getColList df.cols m := by
    have hrw := mapCol_ok_getColList_ne m h1 hd2
    rw [hrw]
    show getColList (setColList (setColList (setColList df.cols "gender" _) "age" _)
        "residence" _) m = getColList df.cols m
    rw [getColList_setColList_ne _ _ _ _ h3, getColList_setColList_ne _ _ _ _ h2,
      getColList_setColList_ne _ _ _ _ h1]
  rw [e0, e4, e3, e2]

/-- On any text other than the special strings "now" and "today", the
date parser is a pure function of the text. -/
theorem to_datetime_congr (n1 n2 : DateTriple) (s : String)
    (h1 : s ≠ "now") (h2 : s ≠ "today") : to_datetime n1 s = to_datetime n2 s := by
  unfold to_datetime
  rw [if_neg (by simp [h1, h2]), if_neg (by simp [h1, h2])]

/-- On any cell other than the special strings, `format_date` does not
depend on the run date. -/
theorem format_date_congr (n1 n2 : DateTriple) (c : Cell)
    (h1 : c ≠ Cell.str "now") (h2 : c ≠ Cell.str "today") :
    format_date n1 c = format_date n2 c := by
  match c with
  | .nan => rfl
  | .num k => rfl
  | .str s =>
    have hs1 : s ≠ "now" := fun h => h1 (by rw [h])
    have hs2 : s ≠ "today" := fun h => h2 (by rw [h])
    show (match to_datetime n1 s with
          | some d => Cell.str (formatTriple d)
          | none => Cell.nan)
        = (match to_datetime n2 s with
          | some d => Cell.str (formatTriple d)
          | none => Cell.nan)
    rw [to_datetime_congr n1 n2 s hs1 hs2]

/-- Reformatting a date column whose cells avoid the special strings does
not depend on the run date. -/
theorem mapCol_format_date_congr (d : Df) (n1 n2 : DateTriple) (name : String)
    (h : ∀ c, getColList d.cols name = some c →
      ∀ x ∈ c, x ≠ Cell.str "now" ∧ x ≠ Cell.str "today") :
    d.mapCol name (format_date n1) = d.mapCol name (format_date n2) := by
  unfold Df.mapCol Df.getCol
  cases hc : getColList d.cols name with
  | none => rfl
  | some c =>
    have hmap : c.map (format_date n1) = c.map (format_date n2) :=
      List.map_congr_left (fun x hx =>
        format_date_congr n1 n2 x ((h c hc x hx).1) ((h c hc x hx).2))
    show (Except.ok (d.setCol name (c.map (format_date n1))) : Except PdError Df)
        = Except.ok (d.setCol name (c.map (format_date n2)))
    rw [hmap]

/-- C8 counterexample: pandas parses the special date texts "now" and
"today" to the current time (`parse_today_now`), so on a byte-identical
raw frame whose `birth_date` text is "now", two runs at different
wall-clock dates emit that run's date and produce different outputs — the
Transform Pipeline is not a pure function of its input alone. -/
theorem c8_run_date_leaks_into_output :
    (transform_data (2026, 10, 12) rawCsvNow).map (fun d => d.getCol "birth_date")
      = .ok (.ok [Cell.str "2026-10-12"]) ∧
    (transform_data (2027, 1, 1) rawCsvNow).map (fun d => d.getCol "birth_date")
      = .ok (.ok [Cell.str "2027-01-01"]) ∧
    transform_data (2026, 10, 12) rawCsvNow ≠ transform_data (2027, 1, 1) rawCsvNow := by
  have h1 : (transform_data (2026, 10, 12) rawCsvNow).map (fun d => d.getCol "birth_date")
      = .ok (.ok [Cell.str "2026-10-12"]) := rfl
  have h2 : (transform_data (2027, 1, 1) rawCsvNow).map (fun d => d.getCol "birth_date")
      = .ok (.ok [Cell.str "2027-01-01"]) := rfl
  refine ⟨h1, h2, fun heq => ?_⟩
  rw [heq, h2] at h1
  injection h1 with h3
  injection h3 with h4
  exact absurd h4 (by decide)

/-- C8 amended: the Transform Pipeline is deterministic given the run's
wall-clock date, and its output is independent of that date on every frame
whose `birth_date` and `arrest_date` columns never hold the special
strings "now" or "today"; date parsing is a pure function of its input
text except for exactly those two strings. -/
theorem c8_transform_pure_except_now_today (n1 n2 : DateTriple) (df : Df)
    (hb : ∀ c, getColList df.cols "birth_date" = some c →
      ∀ x ∈ c, x ≠ Cell.str "now" ∧ x ≠ Cell.str "today")
    (ha : ∀ c, getColList df.cols "arrest_date" = some c →
      ∀ x ∈ c, x ≠ Cell.str "now" ∧ x ≠ Cell.str "today") :
    transform_data n1 df = transform_data n2 df ∧
    (∀ c, c ≠ Cell.str "now" → c ≠ Cell.str "today" →
      format_date n1 c = format_date n2 c) := by
  refine ⟨?_, fun c h1 h2 => format_date_congr n1 n2 c h1 h2⟩
  unfold transform_data
  cases hs : split_demographics df with
  | error e => rfl
  | ok d0 =>
    simp only [ok_bind]
    have hb0 : ∀ c, getColList d0.cols "birth_date" = some c →
        ∀ x ∈ c, x ≠ Cell.str "now" ∧ x ≠ Cell.str "today" := by
      rw [split_demographics_ok_getColList_ne "birth_date"
        (by decide) (by decide) (by decide) (by decide) hs]
      exact hb
    rw [mapCol_format_date_congr d0 n1 n2 "birth_date" hb0]
    cases hm : d0.mapCol "birth_date" (format_date n2) with
    | error e => rfl
    | ok d1 =>
      simp only [ok_bind]
      have ha1 : ∀ c, getColList d1.cols "arrest_date" = some c →
          ∀ x ∈ c, x ≠ Cell.str "now" ∧ x ≠ Cell.str "today" := by
        rw [mapCol_ok_getColList_ne "arrest_date" (by decide) hm,
          split_demographics_ok_getColList_ne "arrest_date"
            (by decide) (by decide) (by decide) (by decide) hs]
        exact ha
      rw [mapCol_format_date_congr d1 n1 n2 "arrest_date" ha1]

/-- Witness for C8 amended, at two run dates and a frame whose date
fields hold ordinary date text. -/
theorem c8_transform_pure_except_now_today_witness :
    transform_data (2026, 10, 12) rawCsvC8 = transform_data (2027, 1, 1) rawCsvC8 ∧
    format_date (2026, 10, 12) (Cell.str "2000-01-02")
      = format_date (2027, 1, 1) (Cell.str "2000-01-02") := by
  have h := c8_transform_pure_except_now_today (2026, 10, 12) (2027, 1, 1) rawCsvC8
    (fun c hc => by cases hc; decide) (fun c hc => by cases hc; decide)
  exact ⟨h.1, h.2 (Cell.str "2000-01-02") (by decide) (by decide)⟩

/-- C9: when the raw output file already exists at startup, `scrap_data`
returns immediately and normally: no browser session is created, zero page
fetches are performed, and nothing is written. -/
theorem c9_existing_raw_file_skips_extraction (env : RunEnv) (fuel : Nat)
    (h : env.rawFileExists = true) :
    scrap_data env fuel = some ⟨[], 0, false⟩ := by
  rw [scrap_data, if_pos h]

/-- Witness for C9, at a concrete run with a pre-existing raw file. -/
theorem c9_existing_raw_file_skips_extraction_witness :
    cachedRunEnv.rawFileExists = true ∧
    scrap_data cachedRunEnv 1 = some ⟨[], 0, false⟩ :=
  ⟨rfl, c9_existing_raw_file_skips_extraction cachedRunEnv 1 rfl⟩

/-- C10: `get_page_data` appends exactly one raw record per detected block
even when every block's labels miss the field dictionary, so a page of
blocks yielding only empty records is still a nonempty page and the
pagination loop goes on to fetch the next offset. -/
theorem c10_empty_records_still_count_as_page (rows : List Block)
    (hne : rows ≠ []) (_hall : ∀ r ∈ rows, extractRecord r = []) :
    (extractRecords rows).length = rows.length ∧
    extractRecords rows ≠ [] ∧
    scrape_all_pages (fun skip => if skip = 0 then extractRecords rows else [])
      none 3 = some (extractRecords rows, [0, 20]) := by
  have hne2 : extractRecords rows ≠ [] := by
    simpa [extractRecords] using hne
  refine ⟨by simp [extractRecords], hne2, ?_⟩
  have hemp : (extractRecords rows).isEmpty = false := by
    cases hrec : extractRecords rows with
    | nil => exact absurd hrec hne2
    | cons a l => rfl
  show (if (extractRecords rows).isEmpty = true
      then some (([] : List RawRecord), [0])
      else scrapeLoop (fun skip => if skip = 0 then extractRecords rows else [])
        none 2 20 2 ([] ++ extractRecords rows) ([] ++ [0]))
      = some (extractRecords rows, [0, 20])
  rw [hemp]
  rfl

/-- Witness for C10: one block whose single labelled field is not in the
field dictionary still produces one (empty) record, and the loop fetches
the following offset. -/
theorem c10_empty_records_still_count_as_page_witness :
    ([[(⟨some "label", some "v"⟩ : FieldElem)]] : List Block) ≠ [] ∧
    (∀ r ∈ ([[(⟨some "label", some "v"⟩ : FieldElem)]] : List Block),
      extractRecord r = []) ∧
    ((extractRecords [[(⟨some "label", some "v"⟩ : FieldElem)]]).length
        = ([[(⟨some "label", some "v"⟩ : FieldElem)]] : List Block).length ∧
      extractRecords [[(⟨some "label", some "v"⟩ : FieldElem)]] ≠ [] ∧
      scrape_all_pages
        (fun skip => if skip = 0
          then extractRecords [[(⟨some "label", some "v"⟩ : FieldElem)]] else [])
        none 3
        = some (extractRecords [[(⟨some "label", some "v"⟩ : FieldElem)]], [0, 20])) :=
  ⟨by decide, by decide,
    c10_empty_records_still_count_as_page [[⟨some "label", some "v"⟩]]
      (by decide) (by decide)⟩

end PrisonersScraper
